import Mathlib

/-!
Verification of the StarPID simulation core (`pid_simulation.py`).

The program is embedded shallowly: Python floats become rationals (`ℚ`),
mutation of dataclass fields becomes explicit state passing (each method
returns the updated record), Python's float modulo `x % m` becomes
`pymod x m = x - m * ⌊x / m⌋`, and the one fallible operation (the
division by `dt` inside `PID.update`, which raises `ZeroDivisionError`
in Python when `dt = 0`) is additionally modelled as an `Except` variant
`PID.updateE`.
-/

/-- The `PID` dataclass: gains plus the mutable integral / previous-error
state (`pid_simulation.py`, lines 18-24). -/
structure PID where
  kp : ℚ
  ki : ℚ
  kd : ℚ
  integral : ℚ
  prev_err : ℚ
deriving Repr, DecidableEq

/-- `PID(kp, ki, kd)`: construction with the default zero state. -/
def PID.mk0 (kp ki kd : ℚ) : PID :=
  { kp := kp, ki := ki, kd := kd, integral := 0, prev_err := 0 }

/-- `PID.update` (lines 26-31): returns the correction together with the
mutated controller state. -/
def PID.update (p : PID) (err : ℚ) (dt : ℚ) : ℚ × PID :=
  let integral := p.integral + err * dt
  let derivative := (err - p.prev_err) / dt
  let prev_err := err
  (p.kp * err + p.ki * integral + p.kd * derivative,
   { p with integral := integral, prev_err := prev_err })

/-- `PID.update` with the division by `dt` treated as fallible, mirroring
the `ZeroDivisionError` Python raises when `dt = 0`. -/
def PID.updateE (p : PID) (err : ℚ) (dt : ℚ) : Except String (ℚ × PID) :=
  let integral := p.integral + err * dt
  if dt = 0 then Except.error "ZeroDivisionError"
  else
    let derivative := (err - p.prev_err) / dt
    let prev_err := err
    Except.ok (p.kp * err + p.ki * integral + p.kd * derivative,
      { p with integral := integral, prev_err := prev_err })

/-- `n` successive calls of `update` with a constant error sample,
keeping only the state. -/
def PID.iterate (p : PID) (e : ℚ) (dt : ℚ) : ℕ → PID
  | 0 => p
  | n + 1 => ((p.iterate e dt n).update e dt).2

/-- The `Spacecraft` dataclass (lines 34-46); `inertia` is the tuple the
`__post_init__` hook derives from mass and side length. -/
structure Spacecraft where
  mass : ℚ
  side_length : ℚ
  inertia : ℚ × ℚ × ℚ
  attitude : ℚ × ℚ × ℚ
  ang_vel : ℚ × ℚ × ℚ
deriving Repr, DecidableEq

/-- Construction of a `Spacecraft`, including `__post_init__`
(lines 44-46): `i = (1.0/6.0) * mass * side_length ** 2`. -/
def Spacecraft.make (mass side_length : ℚ) : Spacecraft :=
  let i := 1 / 6 * mass * side_length ^ 2
  { mass := mass, side_length := side_length, inertia := (i, i, i),
    attitude := (0, 0, 0), ang_vel := (0, 0, 0) }

/-- `Spacecraft()` with the default mass `620.0` kg and side `1.1` m. -/
def Spacecraft.init : Spacecraft :=
  Spacecraft.make 620 (11 / 10)

/-- `Spacecraft.step` (lines 48-53): per-axis forward Euler update of
angular velocity and attitude from the applied torque. -/
def Spacecraft.step (sc : Spacecraft) (torque : ℚ × ℚ × ℚ) (dt : ℚ) : Spacecraft :=
  let w1 := sc.ang_vel.1 + torque.1 / sc.inertia.1 * dt
  let w2 := sc.ang_vel.2.1 + torque.2.1 / sc.inertia.2.1 * dt
  let w3 := sc.ang_vel.2.2 + torque.2.2 / sc.inertia.2.2 * dt
  { sc with
    ang_vel := (w1, w2, w3),
    attitude := (sc.attitude.1 + w1 * dt, sc.attitude.2.1 + w2 * dt,
                 sc.attitude.2.2 + w3 * dt) }

/-- The `Orbit` dataclass (lines 56-62). -/
structure Orbit where
  semi_major_axis : ℚ
  eccentricity : ℚ
  period_days : ℚ
deriving Repr, DecidableEq

/-- `Orbit()` with the STEREO-A defaults. -/
def Orbit.init : Orbit :=
  { semi_major_axis := 97 / 100, eccentricity := 1 / 100, period_days := 347 }

/-- `Orbit.mean_motion` (lines 63-64). -/
def Orbit.mean_motion (o : Orbit) : ℚ :=
  360 / o.period_days

/-- Python's float modulo for a real modulus: `x % m = x - m * ⌊x / m⌋`. -/
def pymod (x m : ℚ) : ℚ :=
  x - m * ⌊x / m⌋

/-- The loop body of `simulate` (lines 107-118), recursing over the error
samples while threading the three PID states, the spacecraft and the
orbit angle `theta`. -/
def simulateLoop (dt step_days : ℚ) (orbit : Orbit) :
    List (ℚ × ℚ × ℚ) → PID → PID → PID → Spacecraft → ℚ →
      List (ℚ × ℚ × ℚ) × List (ℚ × ℚ × ℚ) × List ℚ
  | [], _, _, _, _, _ => ([], [], [])
  | e :: rest, pid_ra, pid_dec, pid_roll, sc, theta =>
    let ra := pid_ra.update e.1 dt
    let de := pid_dec.update e.2.1 dt
    let ro := pid_roll.update e.2.2 dt
    let torque := (ra.1, de.1, ro.1)
    let sc2 := sc.step torque dt
    let theta2 := pymod (theta + orbit.mean_motion * step_days) 360
    let rest2 := simulateLoop dt step_days orbit rest ra.2 de.2 ro.2 sc2 theta2
    (torque :: rest2.1, sc2.attitude :: rest2.2.1, theta2 :: rest2.2.2)

/-- `simulate` (lines 87-120): three fresh PID controllers with shared
gains, a default spacecraft and orbit, orbit angle starting at `0`. -/
def simulate (errors : List (ℚ × ℚ × ℚ)) (kp ki kd : ℚ) (dt : ℚ)
    (step_days : ℚ) :
    List (ℚ × ℚ × ℚ) × List (ℚ × ℚ × ℚ) × List ℚ :=
  simulateLoop dt step_days Orbit.init errors (PID.mk0 kp ki kd)
    (PID.mk0 kp ki kd) (PID.mk0 kp ki kd) Spacecraft.init 0

/-- C1: a single `PID.update` call accumulates the integral, computes the
derivative from the pre-call previous error, stores the new previous
error, and returns `kp*e + ki*(updated integral) + kd*derivative`. -/
theorem pid_update_spec (p : PID) (e dt : ℚ) (_h : dt ≠ 0) :
    p.update e dt
      = (p.kp * e + p.ki * (p.integral + e * dt)
           + p.kd * ((e - p.prev_err) / dt),
         { p with integral := p.integral + e * dt, prev_err := e }) :=
  rfl

/-- Witness for C1 at a concrete state and inputs. -/
theorem pid_update_spec_witness :
    (PID.mk 1 2 3 4 5).update 6 7
      = ((1 : ℚ) * 6 + 2 * (4 + 6 * 7) + 3 * ((6 - 5) / 7),
         { PID.mk 1 2 3 4 5 with integral := 4 + 6 * 7, prev_err := 6 }) :=
  pid_update_spec (PID.mk 1 2 3 4 5) 6 7 (by norm_num)

/-- The integral after `n` constant-error updates grows linearly. -/
theorem PID.iterate_integral (p : PID) (e dt : ℚ) (n : ℕ) :
    (p.iterate e dt n).integral = p.integral + n * (e * dt) := by
  induction n with
  | zero => simp [PID.iterate]
  | succ n ih =>
    simp only [PID.iterate, PID.update]
    push_cast
    rw [ih]
    ring

/-- C2: with zero initial state the integral after `n` calls with constant
error `e` is exactly `n*e*dt`; in particular with `kp=0, ki=1, kd=0`,
`e=2`, `dt=1` the fifth call returns `10`. -/
theorem pid_integral_linear :
    (∀ (kp ki kd e dt : ℚ) (n : ℕ), dt ≠ 0 → 1 ≤ n →
        ((PID.mk0 kp ki kd).iterate e dt n).integral = n * e * dt)
    ∧ (((PID.mk0 0 1 0).iterate 2 1 4).update 2 1).1 = 10 := by
  constructor
  · intro kp ki kd e dt n _ _
    rw [PID.iterate_integral]
    simp [PID.mk0]
    ring
  · norm_num [PID.iterate, PID.update, PID.mk0]

/-- Witness for C2 (first conjunct) at concrete gains, error and count. -/
theorem pid_integral_linear_witness :
    ((PID.mk0 3 5 7).iterate 2 4 6).integral = ((6 : ℕ) : ℚ) * 2 * 4 :=
  pid_integral_linear.1 3 5 7 2 4 6 (by norm_num) (by norm_num)

/-- C3: construction yields the cube inertia `m*s^2/6` on all three axes,
and `step` performs the per-axis forward Euler update with no
wrap-around on attitude. -/
theorem spacecraft_inertia_step :
    (∀ m s : ℚ, (Spacecraft.make m s).inertia
        = (m * s ^ 2 / 6, m * s ^ 2 / 6, m * s ^ 2 / 6))
    ∧ (∀ (sc : Spacecraft) (torque : ℚ × ℚ × ℚ) (dt : ℚ), dt ≠ 0 →
        sc.step torque dt
          = { sc with
              ang_vel := (sc.ang_vel.1 + torque.1 / sc.inertia.1 * dt,
                          sc.ang_vel.2.1 + torque.2.1 / sc.inertia.2.1 * dt,
                          sc.ang_vel.2.2 + torque.2.2 / sc.inertia.2.2 * dt),
              attitude :=
                (sc.attitude.1
                   + (sc.ang_vel.1 + torque.1 / sc.inertia.1 * dt) * dt,
                 sc.attitude.2.1
                   + (sc.ang_vel.2.1 + torque.2.1 / sc.inertia.2.1 * dt) * dt,
                 sc.attitude.2.2
                   + (sc.ang_vel.2.2 + torque.2.2 / sc.inertia.2.2 * dt) * dt) }) := by
  constructor
  · intro m s
    simp only [Spacecraft.make, Prod.mk.injEq]
    refine ⟨by ring, by ring, by ring⟩
  · intro sc torque dt _
    rfl

/-- Witness for C3 (second conjunct) at a concrete spacecraft and torque. -/
theorem spacecraft_inertia_step_witness :
    (Spacecraft.make 6 1).step (1, 2, 3) 1
      = { Spacecraft.make 6 1 with
          ang_vel := ((Spacecraft.make 6 1).ang_vel.1
                        + (1 : ℚ) / (Spacecraft.make 6 1).inertia.1 * 1,
                      (Spacecraft.make 6 1).ang_vel.2.1
                        + 2 / (Spacecraft.make 6 1).inertia.2.1 * 1,
                      (Spacecraft.make 6 1).ang_vel.2.2
                        + 3 / (Spacecraft.make 6 1).inertia.2.2 * 1),
          attitude :=
            ((Spacecraft.make 6 1).attitude.1
               + ((Spacecraft.make 6 1).ang_vel.1
                    + (1 : ℚ) / (Spacecraft.make 6 1).inertia.1 * 1) * 1,
             (Spacecraft.make 6 1).attitude.2.1
               + ((Spacecraft.make 6 1).ang_vel.2.1
                    + 2 / (Spacecraft.make 6 1).inertia.2.1 * 1) * 1,
             (Spacecraft.make 6 1).attitude.2.2
               + ((Spacecraft.make 6 1).ang_vel.2.2
                    + 3 / (Spacecraft.make 6 1).inertia.2.2 * 1) * 1) } :=
  spacecraft_inertia_step.2 (Spacecraft.make 6 1) (1, 2, 3) 1 (by norm_num)

/-- C9: `Spacecraft.step` leaves mass, side length and inertia unchanged. -/
theorem spacecraft_step_frame (sc : Spacecraft) (torque : ℚ × ℚ × ℚ) (dt : ℚ) :
    (sc.step torque dt).mass = sc.mass
    ∧ (sc.step torque dt).side_length = sc.side_length
    ∧ (sc.step torque dt).inertia = sc.inertia :=
  ⟨rfl, rfl, rfl⟩

/-- C7: the guarded update succeeds exactly on nonzero `dt`, agreeing with
`PID.update` there, and signals the division-by-zero domain error at
`dt = 0`. -/
theorem pid_update_dt_zero (p : PID) (e : ℚ) :
    (∀ dt : ℚ, dt ≠ 0 → p.updateE e dt = Except.ok (p.update e dt))
    ∧ p.updateE e 0 = Except.error "ZeroDivisionError" := by
  constructor
  · intro dt h
    simp [PID.updateE, PID.update, h]
  · simp [PID.updateE]

/-- Witness for C7 at a concrete state and inputs. -/
theorem pid_update_dt_zero_witness :
    ((PID.mk 1 2 3 4 5).updateE 6 7
        = Except.ok ((PID.mk 1 2 3 4 5).update 6 7))
    ∧ (PID.mk 1 2 3 4 5).updateE 6 0 = Except.error "ZeroDivisionError" :=
  ⟨(pid_update_dt_zero (PID.mk 1 2 3 4 5) 6).1 7 (by norm_num),
   (pid_update_dt_zero (PID.mk 1 2 3 4 5) 6).2⟩

/-- The loop appends exactly one record to each output per consumed
sample. -/
theorem simulateLoop_lengths (dt sd : ℚ) (orbit : Orbit) :
    ∀ (es : List (ℚ × ℚ × ℚ)) (p1 p2 p3 : PID) (sc : Spacecraft) (th : ℚ),
      (simulateLoop dt sd orbit es p1 p2 p3 sc th).1.length = es.length
      ∧ (simulateLoop dt sd orbit es p1 p2 p3 sc th).2.1.length = es.length
      ∧ (simulateLoop dt sd orbit es p1 p2 p3 sc th).2.2.length = es.length := by
  intro es
  induction es with
  | nil => intro p1 p2 p3 sc th; simp [simulateLoop]
  | cons e rest ih =>
    intro p1 p2 p3 sc th
    simp only [simulateLoop, List.length_cons]
    exact ⟨by rw [(ih _ _ _ _ _).1], by rw [(ih _ _ _ _ _).2.1],
           by rw [(ih _ _ _ _ _).2.2]⟩

/-- C5: the three sequences returned by `simulate` all have the length of
the input error sequence. -/
theorem simulate_lengths (es : List (ℚ × ℚ × ℚ)) (kp ki kd dt sd : ℚ) :
    (simulate es kp ki kd dt sd).1.length = es.length
    ∧ (simulate es kp ki kd dt sd).2.1.length = es.length
    ∧ (simulate es kp ki kd dt sd).2.2.length = es.length :=
  simulateLoop_lengths dt sd Orbit.init es _ _ _ _ _

/-- Running the loop on a truncated sample list truncates each output. -/
theorem simulateLoop_take (dt sd : ℚ) (orbit : Orbit) :
    ∀ (es : List (ℚ × ℚ × ℚ)) (k : ℕ) (p1 p2 p3 : PID) (sc : Spacecraft)
      (th : ℚ),
      simulateLoop dt sd orbit (es.take k) p1 p2 p3 sc th
        = ((simulateLoop dt sd orbit es p1 p2 p3 sc th).1.take k,
           (simulateLoop dt sd orbit es p1 p2 p3 sc th).2.1.take k,
           (simulateLoop dt sd orbit es p1 p2 p3 sc th).2.2.take k) := by
  intro es
  induction es with
  | nil => intro k p1 p2 p3 sc th; simp [simulateLoop]
  | cons e rest ih =>
    intro k p1 p2 p3 sc th
    cases k with
    | zero => simp [simulateLoop]
    | succ k =>
      simp only [List.take_succ_cons, simulateLoop, ih]

/-- C10: `simulate` is causal — its outputs on the first `k` samples are
the first `k` elements of its outputs on the whole sequence. -/
theorem simulate_causal (es : List (ℚ × ℚ × ℚ)) (k : ℕ) (kp ki kd dt sd : ℚ)
    (_h : k ≤ es.length) :
    simulate (es.take k) kp ki kd dt sd
      = ((simulate es kp ki kd dt sd).1.take k,
         (simulate es kp ki kd dt sd).2.1.take k,
         (simulate es kp ki kd dt sd).2.2.take k) :=
  simulateLoop_take dt sd Orbit.init es k _ _ _ _ _

/-- Witness for C10 at a concrete two-sample sequence truncated to one. -/
theorem simulate_causal_witness :
    simulate ([((1 : ℚ), 2, 3), (4, 5, 6)].take 1) 1 0 0 1 1
      = ((simulate [((1 : ℚ), 2, 3), (4, 5, 6)] 1 0 0 1 1).1.take 1,
         (simulate [((1 : ℚ), 2, 3), (4, 5, 6)] 1 0 0 1 1).2.1.take 1,
         (simulate [((1 : ℚ), 2, 3), (4, 5, 6)] 1 0 0 1 1).2.2.take 1) :=
  simulate_causal [((1 : ℚ), 2, 3), (4, 5, 6)] 1 1 0 0 1 1 (by simp)

/-- Zero-axis invariant of the loop: if every sample has zero DEC and
Roll errors and the DEC/Roll controller and spacecraft states start at
zero, every correction and attitude record has zero DEC and Roll
components. -/
theorem simulateLoop_zero_axes (dt sd : ℚ) (orbit : Orbit) :
    ∀ (es : List (ℚ × ℚ × ℚ)) (p1 p2 p3 : PID) (sc : Spacecraft) (th : ℚ),
      (∀ e ∈ es, e.2.1 = 0 ∧ e.2.2 = 0) →
      p2.integral = 0 → p2.prev_err = 0 → p3.integral = 0 → p3.prev_err = 0 →
      sc.ang_vel.2.1 = 0 → sc.ang_vel.2.2 = 0 →
      sc.attitude.2.1 = 0 → sc.attitude.2.2 = 0 →
      (∀ c ∈ (simulateLoop dt sd orbit es p1 p2 p3 sc th).1,
          c.2.1 = 0 ∧ c.2.2 = 0)
      ∧ (∀ a ∈ (simulateLoop dt sd orbit es p1 p2 p3 sc th).2.1,
          a.2.1 = 0 ∧ a.2.2 = 0) := by
  intro es
  induction es with
  | nil => intro p1 p2 p3 sc th _ _ _ _ _ _ _ _ _; simp [simulateLoop]
  | cons e rest ih =>
    intro p1 p2 p3 sc th hes h2i h2p h3i h3p hv1 hv2 ha1 ha2
    obtain ⟨he1, he2⟩ := hes e (List.mem_cons_self e rest)
    have hrest : ∀ x ∈ rest, x.2.1 = 0 ∧ x.2.2 = 0 :=
      fun x hx => hes x (List.mem_cons_of_mem _ hx)
    have t2 : (p2.update e.2.1 dt).1 = 0 := by
      simp [PID.update, he1, h2i, h2p]
    have t3 : (p3.update e.2.2 dt).1 = 0 := by
      simp [PID.update, he2, h3i, h3p]
    have s2i : (p2.update e.2.1 dt).2.integral = 0 := by
      simp [PID.update, he1, h2i]
    have s2p : (p2.update e.2.1 dt).2.prev_err = 0 := by
      simp [PID.update, he1]
    have s3i : (p3.update e.2.2 dt).2.integral = 0 := by
      simp [PID.update, he2, h3i]
    have s3p : (p3.update e.2.2 dt).2.prev_err = 0 := by
      simp [PID.update, he2]
    have hv1s : (sc.step ((p1.update e.1 dt).1, (p2.update e.2.1 dt).1,
        (p3.update e.2.2 dt).1) dt).ang_vel.2.1 = 0 := by
      simp [Spacecraft.step, t2, hv1]
    have hv2s : (sc.step ((p1.update e.1 dt).1, (p2.update e.2.1 dt).1,
        (p3.update e.2.2 dt).1) dt).ang_vel.2.2 = 0 := by
      simp [Spacecraft.step, t3, hv2]
    have ha1s : (sc.step ((p1.update e.1 dt).1, (p2.update e.2.1 dt).1,
        (p3.update e.2.2 dt).1) dt).attitude.2.1 = 0 := by
      simp [Spacecraft.step, t2, hv1, ha1]
    have ha2s : (sc.step ((p1.update e.1 dt).1, (p2.update e.2.1 dt).1,
        (p3.update e.2.2 dt).1) dt).attitude.2.2 = 0 := by
      simp [Spacecraft.step, t3, hv2, ha2]
    have ihx := ih (p1.update e.1 dt).2 (p2.update e.2.1 dt).2
      (p3.update e.2.2 dt).2
      (sc.step ((p1.update e.1 dt).1, (p2.update e.2.1 dt).1,
        (p3.update e.2.2 dt).1) dt)
      (pymod (th + orbit.mean_motion * sd) 360)
      hrest s2i s2p s3i s3p hv1s hv2s ha1s ha2s
    constructor
    · intro c hc
      simp only [simulateLoop, List.mem_cons] at hc
      rcases hc with rfl | hc
      · exact ⟨t2, t3⟩
      · exact ihx.1 c hc
    · intro a hc
      simp only [simulateLoop, List.mem_cons] at hc
      rcases hc with rfl | hc
      · exact ⟨ha1s, ha2s⟩
      · exact ihx.2 a hc

/-- C6: with identically zero DEC and Roll error components, `simulate`
produces identically zero DEC and Roll corrections and attitudes. -/
theorem simulate_zero_axes (es : List (ℚ × ℚ × ℚ)) (kp ki kd dt sd : ℚ)
    (hes : ∀ e ∈ es, e.2.1 = 0 ∧ e.2.2 = 0) :
    (∀ c ∈ (simulate es kp ki kd dt sd).1, c.2.1 = 0 ∧ c.2.2 = 0)
    ∧ (∀ a ∈ (simulate es kp ki kd dt sd).2.1, a.2.1 = 0 ∧ a.2.2 = 0) :=
  simulateLoop_zero_axes dt sd Orbit.init es _ _ _ _ _ hes rfl rfl rfl rfl
    rfl rfl rfl rfl

/-- Witness for C6: a one-sample run with a pure RA error. -/
theorem simulate_zero_axes_witness :
    (((simulate [((1 : ℚ), 0, 0)] 1 2 3 1 1).1.getD 0 0).2.1 = 0
      ∧ ((simulate [((1 : ℚ), 0, 0)] 1 2 3 1 1).1.getD 0 0).2.2 = 0)
    ∧ (((simulate [((1 : ℚ), 0, 0)] 1 2 3 1 1).2.1.getD 0 0).2.1 = 0
      ∧ ((simulate [((1 : ℚ), 0, 0)] 1 2 3 1 1).2.1.getD 0 0).2.2 = 0) := by
  have h := simulate_zero_axes [((1 : ℚ), 0, 0)] 1 2 3 1 1 (by simp)
  refine ⟨h.1 _ ?_, h.2 _ ?_⟩ <;>
    · simp [simulate, simulateLoop]

/-- Python's modulo by `360` always lands in `[0, 360)`. -/
theorem pymod_mem_Ico (x : ℚ) : 0 ≤ pymod x 360 ∧ pymod x 360 < 360 := by
  have hkey : pymod x 360 = 360 * Int.fract (x / 360) := by
    unfold pymod
    rw [Int.fract]
    field_simp
  constructor
  · rw [hkey]
    exact mul_nonneg (by norm_num) (Int.fract_nonneg _)
  · rw [hkey]
    exact (mul_lt_iff_lt_one_right (by norm_num)).2 (Int.fract_lt_one _)

/-- Every orbit angle the loop records is a `pymod` value, hence in
`[0, 360)`. -/
theorem simulateLoop_orbit_range (dt sd : ℚ) (orbit : Orbit) :
    ∀ (es : List (ℚ × ℚ × ℚ)) (p1 p2 p3 : PID) (sc : Spacecraft) (th : ℚ),
      ∀ x ∈ (simulateLoop dt sd orbit es p1 p2 p3 sc th).2.2,
        0 ≤ x ∧ x < 360 := by
  intro es
  induction es with
  | nil => intro p1 p2 p3 sc th; simp [simulateLoop]
  | cons e rest ih =>
    intro p1 p2 p3 sc th x hx
    simp only [simulateLoop, List.mem_cons] at hx
    rcases hx with rfl | hx
    · exact pymod_mem_Ico _
    · exact ih _ _ _ _ _ x hx

/-- C8: every recorded orbit angle lies in `[0, 360)`. -/
theorem orbit_angles_range (es : List (ℚ × ℚ × ℚ)) (kp ki kd dt sd : ℚ)
    (_h : 0 ≤ sd) :
    ∀ x ∈ (simulate es kp ki kd dt sd).2.2, 0 ≤ x ∧ x < 360 :=
  simulateLoop_orbit_range dt sd Orbit.init es _ _ _ _ _

/-- Witness for C8 at a step size large enough to force wrap-around. -/
theorem orbit_angles_range_witness :
    0 ≤ ((simulate [((1 : ℚ), 2, 3)] 1 0 0 1 400).2.2).getD 0 0
    ∧ ((simulate [((1 : ℚ), 2, 3)] 1 0 0 1 400).2.2).getD 0 0 < 360 := by
  have h := orbit_angles_range [((1 : ℚ), 2, 3)] 1 0 0 1 400 (by norm_num)
  exact h _ (by simp [simulate, simulateLoop])

/-- Shifting the argument by an integer multiple of `360` leaves
`pymod _ 360` unchanged. -/
theorem pymod_add_int_mul (x : ℚ) (k : ℤ) :
    pymod (x + 360 * k) 360 = pymod x 360 := by
  unfold pymod
  have h : (x + 360 * k) / 360 = x / 360 + k := by
    field_simp
    ring
  rw [h, Int.floor_add_int]
  push_cast
  ring

/-- Reducing before adding does not change the reduced sum. -/
theorem pymod_pymod_add (x y : ℚ) :
    pymod (pymod x 360 + y) 360 = pymod (x + y) 360 := by
  have h : pymod x 360 + y = x + y + 360 * (-⌊x / 360⌋ : ℤ) := by
    unfold pymod
    push_cast
    ring
  rw [h, pymod_add_int_mul]

/-- The `i`-th recorded orbit angle is the start angle advanced `i+1`
times and reduced once. -/
theorem simulateLoop_orbit_getD (dt sd : ℚ) (orbit : Orbit) :
    ∀ (es : List (ℚ × ℚ × ℚ)) (p1 p2 p3 : PID) (sc : Spacecraft) (th : ℚ)
      (i : ℕ), i < es.length →
      ((simulateLoop dt sd orbit es p1 p2 p3 sc th).2.2).getD i 0
        = pymod (th + ((i : ℚ) + 1) * (orbit.mean_motion * sd)) 360 := by
  intro es
  induction es with
  | nil => intro p1 p2 p3 sc th i hi; simp at hi
  | cons e rest ih =>
    intro p1 p2 p3 sc th i hi
    cases i with
    | zero =>
      simp only [simulateLoop, List.getD_cons_zero]
      congr 1
      ring
    | succ i =>
      have hi2 : i < rest.length := by simpa using hi
      simp only [simulateLoop, List.getD_cons_succ]
      rw [ih _ _ _ _ _ i hi2, pymod_pymod_add]
      congr 1
      push_cast
      ring

/-- C4: the `n`-th orbit angle equals `(n * (360/347) * step_days) mod 360`
exactly; in particular with `step_days = 0.02778` the 36th element is
`1.0383` degrees to within `0.001` (its exact value is
`225018/216875 = 1.03754...`). -/
theorem orbit_angle_formula :
    (∀ (es : List (ℚ × ℚ × ℚ)) (kp ki kd dt sd : ℚ) (n : ℕ),
        1 ≤ n → n ≤ es.length →
        ((simulate es kp ki kd dt sd).2.2).getD (n - 1) 0
          = pymod ((n : ℚ) * (360 / 347) * sd) 360)
    ∧ |((simulate (List.replicate 36 ((0 : ℚ), 0, 0)) 0 0 0 1
          (2778 / 100000)).2.2).getD 35 0 - 10383 / 10000| < 1 / 1000 := by
  constructor
  · intro es kp ki kd dt sd n h1 h2
    have hi : n - 1 < es.length := by omega
    have hg := simulateLoop_orbit_getD dt sd Orbit.init es (PID.mk0 kp ki kd)
      (PID.mk0 kp ki kd) (PID.mk0 kp ki kd) Spacecraft.init 0 (n - 1) hi
    simp only [simulate]
    rw [hg]
    have hmm : Orbit.init.mean_motion = 360 / 347 := rfl
    rw [hmm]
    congr 1
    have hc : ((n - 1 : ℕ) : ℚ) + 1 = n := by
      push_cast [Nat.cast_sub h1]
      ring
    rw [hc]
    ring
  · have hg := simulateLoop_orbit_getD 1 (2778 / 100000) Orbit.init
      (List.replicate 36 ((0 : ℚ), 0, 0)) (PID.mk0 0 0 0) (PID.mk0 0 0 0)
      (PID.mk0 0 0 0) Spacecraft.init 0 35 (by simp)
    simp only [simulate]
    rw [hg]
    have hmm : Orbit.init.mean_motion = 360 / 347 := rfl
    rw [hmm]
    have harg : (0 : ℚ) + (((35 : ℕ) : ℚ) + 1) * (360 / 347 * (2778 / 100000))
        = 225018 / 216875 := by
      norm_num
    rw [harg]
    have hfloor : ⌊(225018 / 216875 : ℚ) / 360⌋ = 0 := by
      rw [Int.floor_eq_zero_iff]
      refine Set.mem_Ico.mpr ⟨by norm_num, by norm_num⟩
    unfold pymod
    rw [hfloor]
    rw [abs_sub_lt_iff]
    constructor <;> norm_num

/-- Witness for C4 (first conjunct) at a one-sample run. -/
theorem orbit_angle_formula_witness :
    ((simulate [((0 : ℚ), 0, 0)] 1 1 1 1 2).2.2).getD 0 0
      = pymod (((1 : ℕ) : ℚ) * (360 / 347) * 2) 360 :=
  orbit_angle_formula.1 [((0 : ℚ), 0, 0)] 1 1 1 1 2 1 (le_refl 1) (by simp)
